import Mathlib

/-!
Verification of the Hyper-V ISO builder (packer fork).

Shallow embedding of:
* `builder/hyperv/iso/builder.go` — `Builder.Prepare`, `Builder.Run` (post-run
  sentinel interpretation), `checkDiskSize`, `checkRamSize`;
* `builder/hyperv/common/step_configure_ip.go` — `StepConfigureIp.Run`
  (the bounded retry-poll loop over
  `hyperv.GetVirtualMachineNetworkAdapterAddress`);
* `builder/hyperv/common/step_configure_vlan.go` — `StepConfigureVlan.Run`;
* the multistep `BasicRunner` (external `mitchellh/multistep` package, modelled
  from the specification, §4.3) and the `PowerShellCmd.Output` collaborator
  (modelled from the specification, §6).

External collaborators (hypervisor queries, DNS reverse lookup, command
execution, sub-configuration `Prepare` calls) are passed in as explicit
oracles, so every definition is executable on concrete inputs.
-/

/-- The size bound constants of `builder.go`. -/
def DefaultDiskSize : Nat := 40000

/-- `MinDiskSize = 10 * 1024` from `builder.go`. -/
def MinDiskSize : Nat := 10 * 1024

/-- `MaxDiskSize = 65536 * 1024` from `builder.go`. -/
def MaxDiskSize : Nat := 65536 * 1024

/-- `DefaultRamSize = 1024` from `builder.go`. -/
def DefaultRamSize : Nat := 1024

/-- `MinRamSize = 512` from `builder.go`. -/
def MinRamSize : Nat := 512

/-- `MaxRamSize = 32768` from `builder.go`. -/
def MaxRamSize : Nat := 32768

/-- `LowRam = 512` from `builder.go`. -/
def LowRam : Int := 512

/-- The `Config` struct of `builder/hyperv/iso/builder.go`, restricted to the
fields that the embedded code reads or writes.  Go `uint` sizes become `Nat`;
the `time.Duration` field `IPAddressTimeout` is kept (in seconds) so that we
can state that `StepConfigureIp` never reads it. -/
structure Config where
  packerBuildName : String
  diskSize : Nat
  ramSizeMB : Nat
  floppyFiles : List String
  isoChecksum : String
  isoChecksumType : String
  rawSingleISOUrl : String
  isoUrls : List String
  vmName : String
  switchName : String
  vlanId : String
  cpu : Nat
  generation : Nat
  communicator : String
  ipAddressTimeoutSecs : Nat
  shutdownCommand : String
deriving DecidableEq, Repr

/-- A value stored in the multistep state bag (`interface{}` in Go), restricted
to the types the embedded code actually stores: the UI handle, strings, error
values (represented by their message), booleans, and the builder `Config`. -/
inductive Value where
  | ui : Value
  | str : String → Value
  | err : String → Value
  | bool : Bool → Value
  | config : Config → Value
deriving DecidableEq, Repr

/-- The multistep `BasicStateBag`: a string-keyed map, embedded as an
association list where `Put` prepends (later writes shadow earlier ones). -/
abbrev StateBag := List (String × Value)

/-- `StateBag.Put`: unconditional overwrite (shadowing prepend). -/
def StateBag.put (s : StateBag) (k : String) (v : Value) : StateBag :=
  (k, v) :: s

/-- `StateBag.GetOk`: non-failing probe, returns the value stored at `k`
(the most recent `put`) when present. -/
def StateBag.getOk : StateBag → String → Option Value
  | [], _ => none
  | (k', v) :: rest, k => if k' = k then some v else StateBag.getOk rest k

/-- `multistep.StepAction`: `ActionContinue` or `ActionHalt`. -/
inductive StepAction where
  | Continue : StepAction
  | Halt : StepAction
deriving DecidableEq, Repr

/-- The observable outcome of a Go `Run` invocation: either a normal return of
a `StepAction`, or a runtime panic (`goPanic`), which in the source arises from
a failed type assertion such as `state.Get("ui").(packer.Ui)` when the key is
absent or holds a value of another type. -/
inductive RunOutcome where
  | goPanic : RunOutcome
  | ret : StepAction → RunOutcome
deriving DecidableEq, Repr

/-- `count := 60` in `StepConfigureIp.Run`. -/
def stepConfigureIpCount : Nat := 60

/-- `var duration time.Duration = 1; sleepTime := time.Minute * duration`
in `StepConfigureIp.Run`: the inter-attempt sleep, in minutes. -/
def stepConfigureIpSleepMinutes : Nat := 1

/-- `errorMsg := "Error configuring ip address: %s"` applied by
`fmt.Errorf` in `StepConfigureIp.Run`. -/
def configureIpErrorMsg (s : String) : String :=
  "Error configuring ip address: " ++ s

/-- `strings.TrimSpace`: drop leading and trailing white space.  Implemented
structurally over the character list so that it evaluates by kernel reduction.
(Go trims Unicode white space; `Char.isWhitespace` covers the ASCII
white-space characters, which is all the hypervisor query emits.) -/
def trimSpace (s : String) : String :=
  ⟨((s.data.dropWhile Char.isWhitespace).reverse.dropWhile Char.isWhitespace).reverse⟩

deriving instance DecidableEq for Except

/-- Result of the retry loop body of `StepConfigureIp.Run`. -/
inductive IpLoopResult where
  | queryError : String → IpLoopResult
  | found : String → IpLoopResult
  | exhausted : IpLoopResult
deriving DecidableEq, Repr

/-- Instrumented outcome of the retry loop: the result, the number of
observations (calls to `GetVirtualMachineNetworkAdapterAddress`) performed,
and the total minutes slept between attempts. -/
structure IpLoopOut where
  result : IpLoopResult
  observations : Nat
  sleptMinutes : Nat
deriving DecidableEq, Repr

/-- The `for count != 0` loop of `StepConfigureIp.Run`.  `obs j` is the result
of the `j`-th (0-based) call to `hyperv.GetVirtualMachineNetworkAdapterAddress`
(`Except.error` when the call returned a non-nil error).  `i` is the number of
observations already performed, `c` the remaining `count`.  The loop queries,
breaks when the trimmed output differs from the sentinel `"False"`, and
otherwise sleeps one minute and decrements `count`. -/
def ipLoop (obs : Nat → Except String String) : Nat → Nat → IpLoopOut
  | i, 0 => ⟨.exhausted, i, i * stepConfigureIpSleepMinutes⟩
  | i, c + 1 =>
    match obs i with
    | .error e => ⟨.queryError e, i + 1, i * stepConfigureIpSleepMinutes⟩
    | .ok out =>
      if trimSpace out ≠ "False" then ⟨.found (trimSpace out), i + 1, i * stepConfigureIpSleepMinutes⟩
      else ipLoop obs (i + 1) c

/-- Result of one embedded `Run` invocation of `StepConfigureIp`, carrying the
final state bag and the loop instrumentation. -/
structure IpRunResult where
  outcome : RunOutcome
  state : StateBag
  observations : Nat
  sleptMinutes : Nat
deriving DecidableEq, Repr

/-- `StepConfigureIp.Run` from `step_configure_ip.go`.  `obs` is the oracle for
`hyperv.GetVirtualMachineNetworkAdapterAddress vmName` (indexed by attempt),
`getHostName` the oracle for `powershell.GetHostName`.  The two `state.Get`
type assertions panic (`goPanic`) when the key is absent or wrongly typed. -/
def stepConfigureIpRun (obs : Nat → Except String String)
    (getHostName : String → Except String String) (state : StateBag) : IpRunResult :=
  match state.getOk "ui" with
  | some .ui =>
    match state.getOk "vmName" with
    | some (.str _vmName) =>
      let out := ipLoop obs 0 stepConfigureIpCount
      match out.result with
      | .queryError e =>
        ⟨.ret .Halt, state.put "error" (.err (configureIpErrorMsg e)),
          out.observations, out.sleptMinutes⟩
      | .exhausted =>
        ⟨.ret .Halt,
          state.put "error"
            (.err (configureIpErrorMsg "IP address assigned to the adapter is empty")),
          out.observations, out.sleptMinutes⟩
      | .found ip =>
        match getHostName ip with
        | .error e =>
          ⟨.ret .Halt, state.put "error" (.err e), out.observations, out.sleptMinutes⟩
        | .ok hostName =>
          ⟨.ret .Continue,
            (state.put "ip" (.str ip)).put "hostname" (.str hostName),
            out.observations, out.sleptMinutes⟩
    | _ => ⟨.goPanic, state, 0, 0⟩
  | _ => ⟨.goPanic, state, 0, 0⟩

/-- `StepConfigureIp.Cleanup`: does nothing. -/
def stepConfigureIpCleanup (state : StateBag) : StateBag := state

/-- Boolean test that an observation is the "unset" sentinel: the query
succeeded and its trimmed output is the string `"False"`. -/
def isUnset (r : Except String String) : Bool :=
  match r with
  | .ok s => trimSpace s = "False"
  | .error _ => false

lemma StateBag.getOk_put_same (s : StateBag) (k : String) (v : Value) :
    (s.put k v).getOk k = some v := by
  simp [StateBag.put, StateBag.getOk]

lemma StateBag.getOk_put_ne (s : StateBag) (k k' : String) (v : Value) (h : k ≠ k') :
    (s.put k v).getOk k' = s.getOk k' := by
  simp [StateBag.put, StateBag.getOk, h]

lemma isUnset_ok_eq (s : String) (h : isUnset (.ok s) = true) : trimSpace s = "False" := by
  simpa [isUnset] using h


lemma ipLoop_step_unset (obs : Nat → Except String String) (i c : Nat) (s : String)
    (hobs : obs i = .ok s) (hsf : trimSpace s = "False") :
    ipLoop obs i (c + 1) = ipLoop obs (i + 1) c := by
  simp [ipLoop, hobs, hsf]

lemma ipLoop_found (obs : Nat → Except String String) (a : String) :
    ∀ (k' c i : Nat), k' < c →
    (∀ j, j < k' → isUnset (obs (i + j)) = true) →
    obs (i + k') = .ok a → trimSpace a ≠ "False" →
    ipLoop obs i c = ⟨.found (trimSpace a), i + k' + 1, (i + k') * stepConfigureIpSleepMinutes⟩ := by
  intro k'
  induction k' with
  | zero =>
    intro c i hc _ hobs hne
    rw [Nat.add_zero] at hobs
    match c, hc with
    | c + 1, _ => simp [ipLoop, hobs, hne]
  | succ k ih =>
    intro c i hc hpre hobs hne
    match c, hc with
    | c + 1, hc =>
      have h0 : isUnset (obs (i + 0)) = true := hpre 0 (Nat.succ_pos k)
      rw [Nat.add_zero] at h0
      cases hobs0 : obs i with
      | error e => rw [hobs0] at h0; simp [isUnset] at h0
      | ok s =>
        rw [hobs0] at h0
        have hsf : trimSpace s = "False" := isUnset_ok_eq s h0
        rw [ipLoop_step_unset obs i c s hobs0 hsf]
        have hres := ih c (i + 1) (by omega)
          (fun j hj => by
            have := hpre (j + 1) (by omega)
            simpa [Nat.add_assoc, Nat.add_comm 1 j] using this)
          (by simpa [Nat.add_assoc, Nat.add_comm 1 k] using hobs) hne
        rw [show i + 1 + k = i + (k + 1) from by omega] at hres
        exact hres

lemma ipLoop_queryError (obs : Nat → Except String String) (e : String) :
    ∀ (k' c i : Nat), k' < c →
    (∀ j, j < k' → isUnset (obs (i + j)) = true) →
    obs (i + k') = .error e →
    ipLoop obs i c = ⟨.queryError e, i + k' + 1, (i + k') * stepConfigureIpSleepMinutes⟩ := by
  intro k'
  induction k' with
  | zero =>
    intro c i hc _ hobs
    rw [Nat.add_zero] at hobs
    match c, hc with
    | c + 1, _ => simp [ipLoop, hobs]
  | succ k ih =>
    intro c i hc hpre hobs
    match c, hc with
    | c + 1, hc =>
      have h0 : isUnset (obs (i + 0)) = true := hpre 0 (Nat.succ_pos k)
      rw [Nat.add_zero] at h0
      cases hobs0 : obs i with
      | error e' => rw [hobs0] at h0; simp [isUnset] at h0
      | ok s =>
        rw [hobs0] at h0
        have hsf : trimSpace s = "False" := isUnset_ok_eq s h0
        rw [ipLoop_step_unset obs i c s hobs0 hsf]
        have hres := ih c (i + 1) (by omega)
          (fun j hj => by
            have := hpre (j + 1) (by omega)
            simpa [Nat.add_assoc, Nat.add_comm 1 j] using this)
          (by simpa [Nat.add_assoc, Nat.add_comm 1 k] using hobs)
        rw [show i + 1 + k = i + (k + 1) from by omega] at hres
        exact hres

lemma ipLoop_exhausted (obs : Nat → Except String String) :
    ∀ (c i : Nat),
    (∀ j, j < c → isUnset (obs (i + j)) = true) →
    ipLoop obs i c = ⟨.exhausted, i + c, (i + c) * stepConfigureIpSleepMinutes⟩ := by
  intro c
  induction c with
  | zero => intro i _; simp [ipLoop]
  | succ c ih =>
    intro i hall
    have h0 : isUnset (obs (i + 0)) = true := hall 0 (Nat.succ_pos c)
    rw [Nat.add_zero] at h0
    cases hobs0 : obs i with
    | error e' => rw [hobs0] at h0; simp [isUnset] at h0
    | ok s =>
      rw [hobs0] at h0
      have hsf : trimSpace s = "False" := isUnset_ok_eq s h0
      rw [ipLoop_step_unset obs i c s hobs0 hsf]
      have hres := ih (i + 1) (fun j hj => by
        have := hall (j + 1) (by omega)
        simpa [Nat.add_assoc, Nat.add_comm 1 j] using this)
      rw [show i + 1 + c = i + (c + 1) from by omega] at hres
      exact hres

lemma ipLoop_observations_le (obs : Nat → Except String String) :
    ∀ (c i : Nat), (ipLoop obs i c).observations ≤ i + c := by
  intro c
  induction c with
  | zero => intro i; simp [ipLoop]
  | succ c ih =>
    intro i
    cases hobs0 : obs i with
    | error e =>
      have : ipLoop obs i (c + 1) = ⟨.queryError e, i + 1, i * stepConfigureIpSleepMinutes⟩ := by
        simp [ipLoop, hobs0]
      rw [this]
      show i + 1 ≤ i + (c + 1)
      omega
    | ok s =>
      by_cases hsf : trimSpace s = "False"
      · rw [ipLoop_step_unset obs i c s hobs0 hsf]
        have := ih (i + 1)
        omega
      · have : ipLoop obs i (c + 1) = ⟨.found (trimSpace s), i + 1, i * stepConfigureIpSleepMinutes⟩ := by
          simp [ipLoop, hobs0, hsf]
        rw [this]
        show i + 1 ≤ i + (c + 1)
        omega


/-- Claim C2: if the address query returns the unset sentinel on the first
`k - 1` attempts and a non-sentinel address on attempt `k`, with `k` within the
attempt budget, then `StepConfigureIp.Run` performs exactly `k` observations,
reports no error (the "error" key is untouched), writes the resolved address
under "ip" and the derived host name under "hostname", and returns
`ActionContinue`. -/
theorem stepConfigureIp_retry_poll_success
    (obs : Nat → Except String String) (getHostName : String → Except String String)
    (state : StateBag) (k : Nat) (a hostName : String)
    (hui : state.getOk "ui" = some .ui)
    (hvm : ∃ v, state.getOk "vmName" = some (.str v))
    (hk1 : 1 ≤ k) (hk : k ≤ stepConfigureIpCount)
    (hpre : ∀ j, j < k - 1 → isUnset (obs j) = true)
    (hobs : obs (k - 1) = .ok a) (hne : trimSpace a ≠ "False")
    (hhost : getHostName (trimSpace a) = .ok hostName) :
    (stepConfigureIpRun obs getHostName state).observations = k ∧
    (stepConfigureIpRun obs getHostName state).outcome = .ret .Continue ∧
    (stepConfigureIpRun obs getHostName state).state.getOk "ip" =
      some (.str (trimSpace a)) ∧
    (stepConfigureIpRun obs getHostName state).state.getOk "hostname" =
      some (.str hostName) ∧
    (stepConfigureIpRun obs getHostName state).state.getOk "error" =
      state.getOk "error" := by
  obtain ⟨v, hvm⟩ := hvm
  have hloop := ipLoop_found obs a (k - 1) stepConfigureIpCount 0 (by omega)
    (fun j hj => by simpa using hpre j hj)
    (by simpa using hobs) hne
  rw [show (0:Nat) + (k - 1) = k - 1 from by omega] at hloop
  rw [show k - 1 + 1 = k from by omega] at hloop
  have hrun : stepConfigureIpRun obs getHostName state =
      ⟨.ret .Continue, (state.put "ip" (.str (trimSpace a))).put "hostname" (.str hostName),
        k, (k - 1) * stepConfigureIpSleepMinutes⟩ := by
    simp only [stepConfigureIpRun, hui, hvm, hloop, hhost]
  rw [hrun]
  refine ⟨rfl, rfl, ?_, ?_, ?_⟩
  · rw [StateBag.getOk_put_ne _ _ _ _ (by decide), StateBag.getOk_put_same]
  · rw [StateBag.getOk_put_same]
  · rw [StateBag.getOk_put_ne _ _ _ _ (by decide), StateBag.getOk_put_ne _ _ _ _ (by decide)]

/-- Concrete observation oracle: unset sentinel three times, then an address. -/
def exampleObsSuccess : Nat → Except String String :=
  fun n => if n < 3 then .ok "False" else .ok "203.0.113.5"

/-- Concrete reverse-lookup oracle. -/
def exampleHostOracle : String → Except String String := fun _ => .ok "host1"

/-- A state bag holding the keys `StepConfigureIp.Run` requires. -/
def exampleIpState : StateBag := [("ui", .ui), ("vmName", .str "vm")]

/-- Witness for C2 at the spec's example: sequence unset,unset,unset,address. -/
theorem stepConfigureIp_retry_poll_success_witness :
    (stepConfigureIpRun exampleObsSuccess exampleHostOracle exampleIpState).observations = 4 ∧
    (stepConfigureIpRun exampleObsSuccess exampleHostOracle exampleIpState).outcome =
      .ret .Continue ∧
    (stepConfigureIpRun exampleObsSuccess exampleHostOracle exampleIpState).state.getOk "ip" =
      some (.str (trimSpace "203.0.113.5")) ∧
    (stepConfigureIpRun exampleObsSuccess exampleHostOracle exampleIpState).state.getOk
      "hostname" = some (.str "host1") ∧
    (stepConfigureIpRun exampleObsSuccess exampleHostOracle exampleIpState).state.getOk
      "error" = exampleIpState.getOk "error" :=
  stepConfigureIp_retry_poll_success exampleObsSuccess exampleHostOracle exampleIpState
    4 "203.0.113.5" "host1" (by decide) ⟨"vm", by decide⟩ (by decide) (by decide)
    (by decide) (by decide) (by decide) (by decide)

/-- Claim C3: a query error on attempt `j` is immediately fatal: exactly `j`
observations are performed (no attempt `j + 1`), the error is stored wrapped in
the step's error message under "error", and `ActionHalt` is returned; only an
unset result is retried, never a query failure. -/
theorem stepConfigureIp_query_error_fatal
    (obs : Nat → Except String String) (getHostName : String → Except String String)
    (state : StateBag) (j : Nat) (e : String)
    (hui : state.getOk "ui" = some .ui)
    (hvm : ∃ v, state.getOk "vmName" = some (.str v))
    (hj1 : 1 ≤ j) (hj : j ≤ stepConfigureIpCount)
    (hpre : ∀ j', j' < j - 1 → isUnset (obs j') = true)
    (hobs : obs (j - 1) = .error e) :
    (stepConfigureIpRun obs getHostName state).observations = j ∧
    (stepConfigureIpRun obs getHostName state).outcome = .ret .Halt ∧
    (stepConfigureIpRun obs getHostName state).state.getOk "error" =
      some (.err (configureIpErrorMsg e)) := by
  obtain ⟨v, hvm⟩ := hvm
  have hloop := ipLoop_queryError obs e (j - 1) stepConfigureIpCount 0 (by omega)
    (fun j' hj' => by simpa using hpre j' hj')
    (by simpa using hobs)
  rw [show (0:Nat) + (j - 1) = j - 1 from by omega] at hloop
  rw [show j - 1 + 1 = j from by omega] at hloop
  have hrun : stepConfigureIpRun obs getHostName state =
      ⟨.ret .Halt, state.put "error" (.err (configureIpErrorMsg e)),
        j, (j - 1) * stepConfigureIpSleepMinutes⟩ := by
    simp only [stepConfigureIpRun, hui, hvm, hloop]
  rw [hrun]
  exact ⟨rfl, rfl, StateBag.getOk_put_same _ _ _⟩

/-- Concrete observation oracle: unset once, then a failing query. -/
def exampleObsError : Nat → Except String String :=
  fun n => if n = 0 then .ok "False" else .error "boom"

/-- Witness for C3: query error on the second attempt, no third attempt. -/
theorem stepConfigureIp_query_error_fatal_witness :
    (stepConfigureIpRun exampleObsError exampleHostOracle exampleIpState).observations = 2 ∧
    (stepConfigureIpRun exampleObsError exampleHostOracle exampleIpState).outcome =
      .ret .Halt ∧
    (stepConfigureIpRun exampleObsError exampleHostOracle exampleIpState).state.getOk
      "error" = some (.err (configureIpErrorMsg "boom")) :=
  stepConfigureIp_query_error_fatal exampleObsError exampleHostOracle exampleIpState
    2 "boom" (by decide) ⟨"vm", by decide⟩ (by decide) (by decide) (by decide) (by decide)

/-- Claim C4: when every observation across the full budget is the unset
sentinel, `StepConfigureIp.Run` performs exactly 60 observations and returns
`ActionHalt`, storing under "error" the attempts-exhausted message, which
reports that the assigned address stayed empty rather than that the query
failed. -/
theorem stepConfigureIp_attempts_exhausted
    (obs : Nat → Except String String) (getHostName : String → Except String String)
    (state : StateBag)
    (hui : state.getOk "ui" = some .ui)
    (hvm : ∃ v, state.getOk "vmName" = some (.str v))
    (hall : ∀ j, j < stepConfigureIpCount → isUnset (obs j) = true) :
    (stepConfigureIpRun obs getHostName state).observations = 60 ∧
    (stepConfigureIpRun obs getHostName state).outcome = .ret .Halt ∧
    (stepConfigureIpRun obs getHostName state).state.getOk "error" =
      some (.err "Error configuring ip address: IP address assigned to the adapter is empty") := by
  obtain ⟨v, hvm⟩ := hvm
  have hloop := ipLoop_exhausted obs stepConfigureIpCount 0
    (fun j hj => by simpa using hall j hj)
  rw [show (0:Nat) + stepConfigureIpCount = 60 from by decide] at hloop
  have hrun : stepConfigureIpRun obs getHostName state =
      ⟨.ret .Halt,
        state.put "error"
          (.err (configureIpErrorMsg "IP address assigned to the adapter is empty")),
        60, 60 * stepConfigureIpSleepMinutes⟩ := by
    simp only [stepConfigureIpRun, hui, hvm, hloop]
  rw [hrun]
  exact ⟨rfl, rfl, StateBag.getOk_put_same _ _ _⟩

/-- Concrete observation oracle: always the unset sentinel. -/
def exampleObsAllUnset : Nat → Except String String := fun _ => .ok "False"

/-- Witness for C4: all 60 observations unset. -/
theorem stepConfigureIp_attempts_exhausted_witness :
    (stepConfigureIpRun exampleObsAllUnset exampleHostOracle exampleIpState).observations = 60 ∧
    (stepConfigureIpRun exampleObsAllUnset exampleHostOracle exampleIpState).outcome =
      .ret .Halt ∧
    (stepConfigureIpRun exampleObsAllUnset exampleHostOracle exampleIpState).state.getOk
      "error" =
      some (.err "Error configuring ip address: IP address assigned to the adapter is empty") :=
  stepConfigureIp_attempts_exhausted exampleObsAllUnset exampleHostOracle exampleIpState
    (by decide) ⟨"vm", by decide⟩ (by decide)


/-- Claim C7: `StepConfigureIp.Run` never reads the "cancelled" sentinel: for
every state of the cancellation flag it performs the same observations, sleeps
the same time, and ends with the same outcome (success or attempts-exhausted)
as without the flag; cancellation is observed by the Runner between steps
only. -/
theorem stepConfigureIp_ignores_cancellation
    (obs : Nat → Except String String) (getHostName : String → Except String String)
    (s : StateBag) (val : Value) :
    (stepConfigureIpRun obs getHostName (s.put "cancelled" val)).observations =
      (stepConfigureIpRun obs getHostName s).observations ∧
    (stepConfigureIpRun obs getHostName (s.put "cancelled" val)).outcome =
      (stepConfigureIpRun obs getHostName s).outcome ∧
    (stepConfigureIpRun obs getHostName (s.put "cancelled" val)).sleptMinutes =
      (stepConfigureIpRun obs getHostName s).sleptMinutes := by
  have hui : (s.put "cancelled" val).getOk "ui" = s.getOk "ui" :=
    StateBag.getOk_put_ne _ _ _ _ (by decide)
  have hvm : (s.put "cancelled" val).getOk "vmName" = s.getOk "vmName" :=
    StateBag.getOk_put_ne _ _ _ _ (by decide)
  simp only [stepConfigureIpRun, hui, hvm]
  rcases s.getOk "ui" with _ | v
  · exact ⟨rfl, rfl, rfl⟩
  · cases v with
    | ui =>
      rcases s.getOk "vmName" with _ | w
      · exact ⟨rfl, rfl, rfl⟩
      · cases w with
        | str x =>
          rcases (ipLoop obs 0 stepConfigureIpCount).result with e | ip | _
          · exact ⟨rfl, rfl, rfl⟩
          · rcases hg : getHostName ip with e | h <;> simp [hg]
          · exact ⟨rfl, rfl, rfl⟩
        | ui => exact ⟨rfl, rfl, rfl⟩
        | err m => exact ⟨rfl, rfl, rfl⟩
        | bool b => exact ⟨rfl, rfl, rfl⟩
        | config c => exact ⟨rfl, rfl, rfl⟩
    | str x => exact ⟨rfl, rfl, rfl⟩
    | err m => exact ⟨rfl, rfl, rfl⟩
    | bool b => exact ⟨rfl, rfl, rfl⟩
    | config c => exact ⟨rfl, rfl, rfl⟩

/-- Outcome of a `Run` invocation that performs no retry loop. -/
structure StepResult where
  outcome : RunOutcome
  state : StateBag
deriving DecidableEq, Repr

/-- `StepConfigureVlan.Run` from `step_configure_vlan.go`.
`setVirtualMachineVlanId vmName vlanId` is the oracle for
`hyperv.SetVirtualMachineVlanId` (`some msg` when it returned an error).
The `state.Get` type assertions panic when "ui" or "vmName" is absent or of
an unexpected type. -/
def stepConfigureVlanRun (setVirtualMachineVlanId : String → String → Option String)
    (vlanId : String) (state : StateBag) : StepResult :=
  match state.getOk "ui" with
  | some .ui =>
    match state.getOk "vmName" with
    | some (.str vmName) =>
      match setVirtualMachineVlanId vmName vlanId with
      | some e =>
        ⟨.ret .Halt, state.put "error" (.err ("Error configuring vlan: " ++ e))⟩
      | none => ⟨.ret .Continue, state⟩
    | _ => ⟨.goPanic, state⟩
  | _ => ⟨.goPanic, state⟩

/-- `StepConfigureVlan.Cleanup`: does nothing. -/
def stepConfigureVlanCleanup (state : StateBag) : StateBag := state

/-- Claim C6 counterexample: on an empty Shared State Container the type
assertion `state.Get("ui").(packer.Ui)` in `StepConfigureIp.Run` panics, so
`Run` does not return normally with `Continue` or `Halt` and communicates no
error via the "error" key. -/
theorem stepConfigureIp_panics_on_missing_ui :
    (stepConfigureIpRun (fun _ => .ok "203.0.113.5") (fun _ => .ok "host1")
      []).outcome = .goPanic ∧
    (stepConfigureVlanRun (fun _ _ => none) "11" [("ui", .str "notUi")]).outcome =
      .goPanic := ⟨rfl, rfl⟩

/-- Claim C6 (amended): whenever the expected keys are present with their
expected types ("ui" holding the UI handle and "vmName" a string), `Run` of
both step variants returns normally with `Continue` or `Halt` and never
panics, and every internal failure is communicated solely via the `Halt`
return value plus an error message under the "error" key.  (When an expected
key is absent or wrongly typed, `Run` panics via the failed type assertion, as
the counterexample shows.) -/
theorem stepRun_no_escape_when_keys_present
    (obs : Nat → Except String String) (getHostName : String → Except String String)
    (setVlan : String → String → Option String) (vlanId : String) (state : StateBag)
    (hui : state.getOk "ui" = some .ui)
    (hvm : ∃ v, state.getOk "vmName" = some (.str v)) :
    ((∃ a, (stepConfigureIpRun obs getHostName state).outcome = .ret a) ∧
      ((stepConfigureIpRun obs getHostName state).outcome = .ret .Halt →
        ∃ m, (stepConfigureIpRun obs getHostName state).state.getOk "error" =
          some (.err m))) ∧
    ((∃ a, (stepConfigureVlanRun setVlan vlanId state).outcome = .ret a) ∧
      ((stepConfigureVlanRun setVlan vlanId state).outcome = .ret .Halt →
        ∃ m, (stepConfigureVlanRun setVlan vlanId state).state.getOk "error" =
          some (.err m))) := by
  obtain ⟨v, hvm⟩ := hvm
  constructor
  · simp only [stepConfigureIpRun, hui, hvm]
    rcases (ipLoop obs 0 stepConfigureIpCount).result with e | ip | _
    · exact ⟨⟨.Halt, rfl⟩, fun _ => ⟨_, StateBag.getOk_put_same _ _ _⟩⟩
    · rcases hg : getHostName ip with e | h <;> simp only [hg]
      · exact ⟨⟨.Halt, rfl⟩, fun _ => ⟨_, StateBag.getOk_put_same _ _ _⟩⟩
      · exact ⟨⟨.Continue, rfl⟩, fun hcontra => by simp at hcontra⟩
    · exact ⟨⟨.Halt, rfl⟩, fun _ => ⟨_, StateBag.getOk_put_same _ _ _⟩⟩
  · simp only [stepConfigureVlanRun, hui, hvm]
    rcases hsv : setVlan v vlanId with _ | e <;> simp only [hsv]
    · exact ⟨⟨.Continue, rfl⟩, fun hcontra => by simp at hcontra⟩
    · exact ⟨⟨.Halt, rfl⟩, fun _ => ⟨_, StateBag.getOk_put_same _ _ _⟩⟩

/-- Witness for the amended C6 at a concrete state with both keys present. -/
theorem stepRun_no_escape_when_keys_present_witness :
    ((∃ a, (stepConfigureIpRun exampleObsError exampleHostOracle
        exampleIpState).outcome = .ret a) ∧
      ((stepConfigureIpRun exampleObsError exampleHostOracle
          exampleIpState).outcome = .ret .Halt →
        ∃ m, (stepConfigureIpRun exampleObsError exampleHostOracle
          exampleIpState).state.getOk "error" = some (.err m))) ∧
    ((∃ a, (stepConfigureVlanRun (fun _ _ => none) "11" exampleIpState).outcome =
        .ret a) ∧
      ((stepConfigureVlanRun (fun _ _ => none) "11" exampleIpState).outcome =
          .ret .Halt →
        ∃ m, (stepConfigureVlanRun (fun _ _ => none) "11"
          exampleIpState).state.getOk "error" = some (.err m))) :=
  stepRun_no_escape_when_keys_present exampleObsError exampleHostOracle
    (fun _ _ => none) "11" exampleIpState (by decide) ⟨"vm", by decide⟩

/-- The result of `Builder.Run`: either the artifact produced for the output
directory (`hypervcommon.NewArtifact(b.config.OutputDir)`) or a non-success
error return. -/
inductive BuildResult where
  | artifact : String → BuildResult
  | buildError : String → BuildResult
deriving DecidableEq, Repr

/-- The post-run tail of `Builder.Run` (builder.go, after `b.runner.Run`):
check "error" first (returning it), else the "cancelled" sentinel, else the
"halted" sentinel, else build the artifact for the output directory.  `none`
models the panic of `rawErr.(error)` when the "error" slot holds a non-error
value. -/
def builderRunInterpret (state : StateBag) (outputDir : String) : Option BuildResult :=
  match state.getOk "error" with
  | some v =>
    match v with
    | .err m => some (.buildError m)
    | _ => none
  | none =>
    match state.getOk "cancelled" with
    | some _ => some (.buildError "Build was cancelled.")
    | none =>
      match state.getOk "halted" with
      | some _ => some (.buildError "Build was halted.")
      | none => some (.artifact outputDir)

/-- Claim C5: after the Runner returns, `Builder.Run` interprets the sentinel
keys in priority order: "error" (returned as the build error) before the
cancelled sentinel (non-success "Build was cancelled.") before the halted
sentinel (non-success "Build was halted."); with none of them set it returns
the artifact reference for the output directory. -/
theorem builderRun_sentinel_priority (state : StateBag) (outputDir : String) :
    (∀ m, state.getOk "error" = some (.err m) →
      builderRunInterpret state outputDir = some (.buildError m)) ∧
    (state.getOk "error" = none → (∃ v, state.getOk "cancelled" = some v) →
      builderRunInterpret state outputDir = some (.buildError "Build was cancelled.")) ∧
    (state.getOk "error" = none → state.getOk "cancelled" = none →
      (∃ v, state.getOk "halted" = some v) →
      builderRunInterpret state outputDir = some (.buildError "Build was halted.")) ∧
    (state.getOk "error" = none → state.getOk "cancelled" = none →
      state.getOk "halted" = none →
      builderRunInterpret state outputDir = some (.artifact outputDir)) := by
  refine ⟨?_, ?_, ?_, ?_⟩
  · intro m hm; simp [builderRunInterpret, hm]
  · rintro he ⟨v, hv⟩; simp [builderRunInterpret, he, hv]
  · rintro he hc ⟨v, hv⟩; simp [builderRunInterpret, he, hc, hv]
  · intro he hc hh; simp [builderRunInterpret, he, hc, hh]

/-- Witness for C5: each of the four priority branches at a concrete state. -/
theorem builderRun_sentinel_priority_witness :
    builderRunInterpret [("halted", .bool true), ("error", .err "boom")] "out" =
      some (.buildError "boom") ∧
    builderRunInterpret [("cancelled", .bool true), ("halted", .bool true)] "out" =
      some (.buildError "Build was cancelled.") ∧
    builderRunInterpret [("halted", .bool true)] "out" =
      some (.buildError "Build was halted.") ∧
    builderRunInterpret [] "out" = some (.artifact "out") :=
  ⟨(builderRun_sentinel_priority [("halted", .bool true), ("error", .err "boom")]
      "out").1 "boom" (by decide),
    (builderRun_sentinel_priority [("cancelled", .bool true), ("halted", .bool true)]
      "out").2.1 (by decide) ⟨.bool true, by decide⟩,
    (builderRun_sentinel_priority [("halted", .bool true)] "out").2.2.1
      (by decide) (by decide) ⟨.bool true, by decide⟩,
    (builderRun_sentinel_priority [] "out").2.2.2 (by decide) (by decide) (by decide)⟩

/-- A generic multistep `Step`: a `Run` phase returning the next state and an
action, and a best-effort `Cleanup` phase. -/
structure GStep where
  run : StateBag → StateBag × StepAction
  cleanup : StateBag → StateBag

/-- Trace of one Runner execution: the final state of the run loop, the
realized start order (indices of Steps whose `Run` was invoked, in invocation
order), and the deferred-cleanup stack at loop exit (cleanups are executed
front to last, LIFO like Go `defer`). -/
structure RunnerTrace where
  state : StateBag
  started : List Nat
  deferredCleanups : List Nat
deriving Repr

/-- Modelled from the spec: the `multistep.BasicRunner` run loop (the
`mitchellh/multistep` package is not among the provided source files; only its
caller `Builder.Run` is).  Spec §4.3: iterate the Steps in order; before each
Step check whether cancellation has been requested (`cancel i` at the
checkpoint before step `i`) and if so mark "cancelled" and stop; otherwise
invoke `Run`, record the step as started (pushing its cleanup, `defer`-style),
mark "halted" and stop on `Halt`, advance on `Continue`. -/
def basicRunnerLoop (cancel : Nat → Bool) :
    List GStep → Nat → StateBag → List Nat → RunnerTrace
  | [], _, s, defs => ⟨s, [], defs⟩
  | g :: rest, i, s, defs =>
    if cancel i then ⟨s.put "cancelled" (.bool true), [], defs⟩
    else
      match g.run s with
      | (s', .Halt) => ⟨s'.put "halted" (.bool true), [i], i :: defs⟩
      | (s', .Continue) =>
        let r := basicRunnerLoop cancel rest (i + 1) s' (i :: defs)
        ⟨r.state, i :: r.started, r.deferredCleanups⟩

/-- Modelled from the spec: `BasicRunner.Run` — run the loop from step 0 with
an empty deferred stack, then execute every deferred cleanup in stack order
(spec §4.3 rule 5: cleanup every started Step, reverse start order). -/
def basicRunnerRun (cancel : Nat → Bool) (steps : List GStep) (s : StateBag) :
    RunnerTrace × StateBag :=
  let t := basicRunnerLoop cancel steps 0 s []
  (t, t.deferredCleanups.foldl
    (fun st i => match steps[i]? with | some g => g.cleanup st | none => st) t.state)

lemma basicRunnerLoop_deferred_eq (cancel : Nat → Bool) :
    ∀ (steps : List GStep) (i : Nat) (s : StateBag) (defs : List Nat),
    (basicRunnerLoop cancel steps i s defs).deferredCleanups =
      (basicRunnerLoop cancel steps i s defs).started.reverse ++ defs := by
  intro steps
  induction steps with
  | nil => intro i s defs; simp [basicRunnerLoop]
  | cons g rest ih =>
    intro i s defs
    by_cases hc : cancel i
    · simp [basicRunnerLoop, hc]
    · rcases hr : g.run s with ⟨s', a⟩
      cases a with
      | Halt => simp [basicRunnerLoop, hc, hr]
      | Continue =>
        simp only [basicRunnerLoop, hc, hr, if_neg, Bool.false_eq_true,
          not_false_iff]
        rw [ih (i + 1) s' (i :: defs)]
        simp

lemma basicRunnerLoop_started_nodup (cancel : Nat → Bool) :
    ∀ (steps : List GStep) (i : Nat) (s : StateBag) (defs : List Nat),
    (basicRunnerLoop cancel steps i s defs).started.Nodup ∧
    ∀ j ∈ (basicRunnerLoop cancel steps i s defs).started, i ≤ j := by
  intro steps
  induction steps with
  | nil => intro i s defs; simp [basicRunnerLoop]
  | cons g rest ih =>
    intro i s defs
    by_cases hc : cancel i
    · simp [basicRunnerLoop, hc]
    · rcases hr : g.run s with ⟨s', a⟩
      cases a with
      | Halt => simp [basicRunnerLoop, hc, hr]
      | Continue =>
        simp only [basicRunnerLoop, hc, hr, if_neg, Bool.false_eq_true,
          not_false_iff]
        obtain ⟨hnd, hge⟩ := ih (i + 1) s' (i :: defs)
        refine ⟨List.nodup_cons.mpr ⟨fun hmem => ?_, hnd⟩, ?_⟩
        · have := hge i hmem; omega
        · intro j hj
          rcases List.mem_cons.mp hj with hj | hj
          · omega
          · have := hge j hj; omega

/-- Claim C1: for every step list, every step behavior, and every pattern of
cancellation requests (covering halt, cancellation, and natural completion),
the Runner's cleanup sequence is exactly the reverse of the realized start
order: every started Step is cleaned up exactly once, and a Step that never
started is never cleaned up. -/
theorem runner_cleanup_exact_reverse (cancel : Nat → Bool) (steps : List GStep)
    (s : StateBag) :
    (basicRunnerRun cancel steps s).1.deferredCleanups =
      (basicRunnerRun cancel steps s).1.started.reverse ∧
    ∀ i, (basicRunnerRun cancel steps s).1.deferredCleanups.count i =
      if i ∈ (basicRunnerRun cancel steps s).1.started then 1 else 0 := by
  have hdef := basicRunnerLoop_deferred_eq cancel steps 0 s []
  have hnd := (basicRunnerLoop_started_nodup cancel steps 0 s []).1
  constructor
  · simpa [basicRunnerRun] using hdef
  · intro i
    have hrw : (basicRunnerRun cancel steps s).1.deferredCleanups =
        (basicRunnerLoop cancel steps 0 s []).started.reverse := by
      simpa [basicRunnerRun] using hdef
    rw [hrw]
    have hstarted : (basicRunnerRun cancel steps s).1.started =
        (basicRunnerLoop cancel steps 0 s []).started := rfl
    rw [hstarted, List.count_reverse]
    by_cases hmem : i ∈ (basicRunnerLoop cancel steps 0 s []).started
    · rw [if_pos hmem]
      exact List.count_eq_one_of_mem hnd hmem
    · rw [if_neg hmem]
      exact List.count_eq_zero_of_not_mem hmem

/-- Modelled from the spec: the command-execution collaborator
`PowerShellCmd.Output` (package `powershell`), whose implementation is not
among the provided source files — only its test `TestOutput` is.  Spec §6:
it accepts a script body plus positional arguments and returns captured text
output and an error; empty input yields empty output and no error; script
errors surface as a non-nil error value, never as a special output string.
`exec` is the oracle for actually running a non-empty script. -/
def powerShellCmdOutput (exec : String → List String → Except String String)
    (script : String) (args : List String) : Except String String :=
  if script = "" then .ok "" else exec script args

/-- Claim C8: an empty script input yields an empty captured output and no
error, and a script error surfaces as a non-nil error value, never as a
special output string. -/
theorem powerShellCmdOutput_contract
    (exec : String → List String → Except String String) (args : List String) :
    powerShellCmdOutput exec "" args = .ok "" ∧
    ∀ script e, script ≠ "" → exec script args = .error e →
      powerShellCmdOutput exec script args = .error e := by
  refine ⟨by simp [powerShellCmdOutput], ?_⟩
  intro script e hs he
  simp [powerShellCmdOutput, hs, he]

/-- Witness for C8: empty script, and a concrete failing script. -/
theorem powerShellCmdOutput_contract_witness :
    powerShellCmdOutput (fun _ _ => .error "script failed") "" [] = .ok "" ∧
    powerShellCmdOutput (fun _ _ => .error "script failed") "Get-Broken" [] =
      .error "script failed" :=
  ⟨(powerShellCmdOutput_contract (fun _ _ => .error "script failed") []).1,
    (powerShellCmdOutput_contract (fun _ _ => .error "script failed") []).2
      "Get-Broken" "script failed" (by decide) rfl⟩

/-- Claim C10: the retry-poll budget and delay are the hard-coded constants 60
attempts and a one-minute sleep; the configured `ip_address_timeout` is never
read by `StepConfigureIp.Run`, so two runs whose "config" entries differ only
in that setting perform identical observations, sleeps, and outcome, and never
more than the 60-attempt budget. -/
theorem stepConfigureIp_budget_hardcoded
    (obs : Nat → Except String String) (getHostName : String → Except String String)
    (s : StateBag) (c : Config) (t1 t2 : Nat) :
    (stepConfigureIpRun obs getHostName
        (s.put "config" (.config { c with ipAddressTimeoutSecs := t1 }))).observations =
      (stepConfigureIpRun obs getHostName
        (s.put "config" (.config { c with ipAddressTimeoutSecs := t2 }))).observations ∧
    (stepConfigureIpRun obs getHostName
        (s.put "config" (.config { c with ipAddressTimeoutSecs := t1 }))).outcome =
      (stepConfigureIpRun obs getHostName
        (s.put "config" (.config { c with ipAddressTimeoutSecs := t2 }))).outcome ∧
    (stepConfigureIpRun obs getHostName
        (s.put "config" (.config { c with ipAddressTimeoutSecs := t1 }))).sleptMinutes =
      (stepConfigureIpRun obs getHostName
        (s.put "config" (.config { c with ipAddressTimeoutSecs := t2 }))).sleptMinutes ∧
    (stepConfigureIpRun obs getHostName
        (s.put "config" (.config { c with ipAddressTimeoutSecs := t1 }))).observations ≤
      stepConfigureIpCount ∧
    stepConfigureIpCount = 60 ∧ stepConfigureIpSleepMinutes = 1 := by
  have huiA : (s.put "config" (.config { c with ipAddressTimeoutSecs := t1 })).getOk
      "ui" = s.getOk "ui" := StateBag.getOk_put_ne _ _ _ _ (by decide)
  have huiB : (s.put "config" (.config { c with ipAddressTimeoutSecs := t2 })).getOk
      "ui" = s.getOk "ui" := StateBag.getOk_put_ne _ _ _ _ (by decide)
  have hvmA : (s.put "config" (.config { c with ipAddressTimeoutSecs := t1 })).getOk
      "vmName" = s.getOk "vmName" := StateBag.getOk_put_ne _ _ _ _ (by decide)
  have hvmB : (s.put "config" (.config { c with ipAddressTimeoutSecs := t2 })).getOk
      "vmName" = s.getOk "vmName" := StateBag.getOk_put_ne _ _ _ _ (by decide)
  have hobsle : ∀ st : StateBag, (stepConfigureIpRun obs getHostName st).observations ≤
      stepConfigureIpCount := by
    intro st
    have hle := ipLoop_observations_le obs stepConfigureIpCount 0
    rw [Nat.zero_add] at hle
    simp only [stepConfigureIpRun]
    rcases st.getOk "ui" with _ | v
    · exact Nat.zero_le _
    · cases v <;> try exact Nat.zero_le _
      rcases st.getOk "vmName" with _ | w
      · exact Nat.zero_le _
      · cases w <;> try exact Nat.zero_le _
        rcases (ipLoop obs 0 stepConfigureIpCount).result with e | ip | _
        · exact hle
        · rcases hg : getHostName ip with e | h <;> simp only [hg] <;> exact hle
        · exact hle
  refine ⟨?_, ?_, ?_, hobsle _, rfl, rfl⟩ <;>
  · simp only [stepConfigureIpRun, huiA, huiB, hvmA, hvmB]
    rcases s.getOk "ui" with _ | v
    · rfl
    · cases v <;> try rfl
      rcases s.getOk "vmName" with _ | w
      · rfl
      · cases w <;> try rfl
        rcases (ipLoop obs 0 stepConfigureIpCount).result with e | ip | _
        · rfl
        · rcases hg : getHostName ip with e | h <;> simp [hg]
        · rfl

/-- `Builder.checkDiskSize` from builder.go: default a zero `DiskSize` to
`DefaultDiskSize`, then report an error when it lies outside
`[MinDiskSize, MaxDiskSize]`. -/
def checkDiskSize (c : Config) : Config × Option String :=
  let c := if c.diskSize = 0 then { c with diskSize := DefaultDiskSize } else c
  if c.diskSize < MinDiskSize then
    (c, some ("disk_size_gb: Windows server requires disk space >= " ++
      toString MinDiskSize ++ " GB, but defined: " ++ toString (c.diskSize / 1024)))
  else if c.diskSize > MaxDiskSize then
    (c, some ("disk_size_gb: Windows server requires disk space <= " ++
      toString MaxDiskSize ++ " GB, but defined: " ++ toString (c.diskSize / 1024)))
  else (c, none)

/-- `Builder.checkRamSize` from builder.go: default a zero `RamSizeMB` to
`DefaultRamSize`, then report an error when it lies outside
`[MinRamSize, MaxRamSize]`. -/
def checkRamSize (c : Config) : Config × Option String :=
  let c := if c.ramSizeMB = 0 then { c with ramSizeMB := DefaultRamSize } else c
  if c.ramSizeMB < MinRamSize then
    (c, some ("ram_size_mb: Windows server requires memory size >= " ++
      toString MinRamSize ++ " MB, but defined: " ++ toString c.ramSizeMB))
  else if c.ramSizeMB > MaxRamSize then
    (c, some ("ram_size_mb: Windows server requires memory size <= " ++
      toString MaxRamSize ++ " MB, but defined: " ++ toString c.ramSizeMB))
  else (c, none)

/-- The external collaborators `Builder.Prepare` consults: the accumulated
errors of the five out-of-scope sub-configuration `Prepare` calls, the result
of `hyperv.GetExternalOnlineVirtualSwitch` (name and whether an error
occurred), `common.HashForType` (whether the checksum type is known),
`common.DownloadableURL`, and `powershell.GetHostAvailableMemory` (free MB,
embedded as an integer; it only feeds a warning). -/
structure PrepareEnv where
  subPrepareErrors : List String
  onlineSwitchName : String
  onlineSwitchErr : Bool
  hashKnown : String → Bool
  downloadableURL : String → Except String String
  freeMB : Int

/-- builder.go: default `VMName` to "packer-BUILDNAME". -/
def prepareVmName (c : Config) : Config :=
  if c.vmName = "" then { c with vmName := "packer-" ++ c.packerBuildName } else c

/-- builder.go: when no switch name is given, use the online switch when the
lookup produced a non-empty name without error, else "packer-BUILDNAME". -/
def prepareSwitchName (env : PrepareEnv) (c : Config) : Config :=
  if c.switchName = "" then
    if env.onlineSwitchName = "" ∨ env.onlineSwitchErr then
      { c with switchName := "packer-" ++ c.packerBuildName }
    else { c with switchName := env.onlineSwitchName }
  else c

/-- builder.go: `if b.config.Cpu < 1 { b.config.Cpu = 1 }`. -/
def prepareCpu (c : Config) : Config :=
  if c.cpu < 1 then { c with cpu := 1 } else c

/-- builder.go: `if b.config.Generation != 2 { b.config.Generation = 1 }`. -/
def prepareGeneration (c : Config) : Config :=
  if c.generation ≠ 2 then { c with generation := 1 } else c

/-- builder.go: generation-2 VMs reject floppy files. -/
def generationFloppyError (c : Config) : List String :=
  if c.generation = 2 ∧ 0 < c.floppyFiles.length then
    ["Generation 2 vms don't support floppy drives. Use ISO image instead."]
  else []

/-- builder.go: default an empty communicator to "ssh"; accept "ssh" and
"winrm"; reject anything else. -/
def prepareCommunicator (c : Config) : Config × List String :=
  if c.communicator = "" then ({ c with communicator := "ssh" }, [])
  else if c.communicator = "ssh" ∨ c.communicator = "winrm" then (c, [])
  else (c, ["communicator must be either ssh or winrm"])

/-- `strings.ToLower`, embedded structurally over the character list so that
it evaluates by kernel reduction (ASCII case mapping, which covers the
checksum type and digest strings this code lowers). -/
def toLowerStr (s : String) : String := ⟨s.data.map Char.toLower⟩

/-- builder.go: the iso_checksum_type / iso_checksum block: lower-case both,
require the type, require a checksum unless the type is "none", and require a
supported hash. -/
def prepareIsoChecksum (env : PrepareEnv) (c : Config) : Config × List String :=
  if c.isoChecksumType = "" then (c, ["The iso_checksum_type must be specified."])
  else
    let c1 : Config := { c with isoChecksumType := toLowerStr c.isoChecksumType }
    if c1.isoChecksumType ≠ "none" then
      let p : Config × List String :=
        if c1.isoChecksum = "" then
          (c1, ["Due to large file sizes, an iso_checksum is required"])
        else ({ c1 with isoChecksum := toLowerStr c1.isoChecksum }, [])
      let hashErrs : List String :=
        if env.hashKnown p.1.isoChecksumType then []
        else ["Unsupported checksum type: " ++ p.1.isoChecksumType]
      (p.1, p.2 ++ hashErrs)
    else (c1, [])

/-- builder.go: the per-URL `common.DownloadableURL` rewrite loop; `i` is the
0-based loop index (the message counts from 1). -/
def rewriteIsoUrls (env : PrepareEnv) : List String → Nat → List String × List String
  | [], _ => ([], [])
  | u :: rest, i =>
    let tail := rewriteIsoUrls env rest (i + 1)
    match env.downloadableURL u with
    | .ok u2 => (u2 :: tail.1, tail.2)
    | .error e =>
      ("" :: tail.1,
        ("Failed to parse iso_url " ++ toString (i + 1) ++ ": " ++ e) :: tail.2)

/-- builder.go: the iso_url / iso_urls block: exactly one of the two must be
given; a single URL becomes the one-element list; all URLs are then rewritten
through `common.DownloadableURL`. -/
def prepareIsoUrls (env : PrepareEnv) (c : Config) : Config × List String :=
  if c.rawSingleISOUrl = "" ∧ c.isoUrls.length = 0 then
    (c, ["One of iso_url or iso_urls must be specified."])
  else if c.rawSingleISOUrl ≠ "" ∧ 0 < c.isoUrls.length then
    (c, ["Only one of iso_url or iso_urls may be specified."])
  else
    let c1 : Config :=
      if c.rawSingleISOUrl ≠ "" then { c with isoUrls := [c.rawSingleISOUrl] } else c
    let rw := rewriteIsoUrls env c1.isoUrls 0
    ({ c1 with isoUrls := rw.1 }, rw.2)

/-- builder.go: the three warnings (checksum type "none", missing shutdown
command, low host memory via `checkHostAvailableMemory`). -/
def prepareWarnings (env : PrepareEnv) (c : Config) : List String :=
  (if c.isoChecksumType = "none" then
    ["A checksum type of 'none' was specified. Since ISO files are so big,\na checksum is highly recommended."]
  else []) ++
  (if c.shutdownCommand = "" then
    ["A shutdown_command was not specified. Without a shutdown command, Packer\nwill forcibly halt the virtual machine, which may result in data loss."]
  else []) ++
  (if env.freeMB - (c.ramSizeMB : Int) < LowRam then
    ["Hyper-V might fail to create a VM if there is not enough free memory in the system."]
  else [])

/-- The outcome of `Builder.Prepare`: the mutated configuration, the warning
list, and the accumulated error list (`Prepare` returns the errors when the
list is non-empty). -/
structure PrepareResult where
  config : Config
  warnings : List String
  errors : List String
deriving Repr

/-- `Builder.Prepare` from builder.go (after `config.Decode` succeeded on
`c0`), in source order: sub-configuration errors, disk and RAM checks, name
defaults, CPU/generation clamps, the generation-2 floppy restriction, the
communicator check, the checksum and URL blocks, then the warnings. -/
def builderPrepare (env : PrepareEnv) (c0 : Config) : PrepareResult :=
  let d := checkDiskSize c0
  let r := checkRamSize d.1
  let c3 := prepareVmName r.1
  let c4 := prepareSwitchName env c3
  let c5 := prepareCpu c4
  let c6 := prepareGeneration c5
  let genErrs := generationFloppyError c6
  let cm := prepareCommunicator c6
  let ck := prepareIsoChecksum env cm.1
  let ur := prepareIsoUrls env ck.1
  ⟨ur.1, prepareWarnings env ur.1,
    env.subPrepareErrors ++ d.2.toList ++ r.2.toList ++ genErrs ++ cm.2 ++
      ck.2 ++ ur.2⟩

lemma checkDiskSize_preserves (c : Config) :
    (checkDiskSize c).1.ramSizeMB = c.ramSizeMB ∧
    (checkDiskSize c).1.cpu = c.cpu ∧
    (checkDiskSize c).1.generation = c.generation ∧
    (checkDiskSize c).1.communicator = c.communicator := by
  simp only [checkDiskSize]
  split_ifs <;> exact ⟨rfl, rfl, rfl, rfl⟩

lemma checkDiskSize_diskSize (c : Config) :
    (checkDiskSize c).1.diskSize =
      if c.diskSize = 0 then DefaultDiskSize else c.diskSize := by
  simp only [checkDiskSize]
  split_ifs <;> simp_all

lemma checkDiskSize_none (c : Config) (h : (checkDiskSize c).2 = none) :
    MinDiskSize ≤ (checkDiskSize c).1.diskSize ∧
    (checkDiskSize c).1.diskSize ≤ MaxDiskSize := by
  simp only [checkDiskSize] at h ⊢
  split_ifs at h ⊢ <;> simp_all

lemma checkRamSize_preserves (c : Config) :
    (checkRamSize c).1.diskSize = c.diskSize ∧
    (checkRamSize c).1.cpu = c.cpu ∧
    (checkRamSize c).1.generation = c.generation ∧
    (checkRamSize c).1.communicator = c.communicator := by
  simp only [checkRamSize]
  split_ifs <;> exact ⟨rfl, rfl, rfl, rfl⟩

lemma checkRamSize_ramSizeMB (c : Config) :
    (checkRamSize c).1.ramSizeMB =
      if c.ramSizeMB = 0 then DefaultRamSize else c.ramSizeMB := by
  simp only [checkRamSize]
  split_ifs <;> simp_all

lemma checkRamSize_none (c : Config) (h : (checkRamSize c).2 = none) :
    MinRamSize ≤ (checkRamSize c).1.ramSizeMB ∧
    (checkRamSize c).1.ramSizeMB ≤ MaxRamSize := by
  simp only [checkRamSize] at h ⊢
  split_ifs at h ⊢ <;> simp_all

lemma prepareVmName_preserves (c : Config) :
    (prepareVmName c).diskSize = c.diskSize ∧
    (prepareVmName c).ramSizeMB = c.ramSizeMB ∧
    (prepareVmName c).cpu = c.cpu ∧
    (prepareVmName c).generation = c.generation ∧
    (prepareVmName c).communicator = c.communicator := by
  simp only [prepareVmName]
  split_ifs <;> exact ⟨rfl, rfl, rfl, rfl, rfl⟩

lemma prepareSwitchName_preserves (env : PrepareEnv) (c : Config) :
    (prepareSwitchName env c).diskSize = c.diskSize ∧
    (prepareSwitchName env c).ramSizeMB = c.ramSizeMB ∧
    (prepareSwitchName env c).cpu = c.cpu ∧
    (prepareSwitchName env c).generation = c.generation ∧
    (prepareSwitchName env c).communicator = c.communicator := by
  simp only [prepareSwitchName]
  split_ifs <;> exact ⟨rfl, rfl, rfl, rfl, rfl⟩

lemma prepareCpu_preserves (c : Config) :
    (prepareCpu c).diskSize = c.diskSize ∧
    (prepareCpu c).ramSizeMB = c.ramSizeMB ∧
    (prepareCpu c).generation = c.generation ∧
    (prepareCpu c).communicator = c.communicator := by
  simp only [prepareCpu]
  split_ifs <;> exact ⟨rfl, rfl, rfl, rfl⟩

lemma prepareCpu_cpu (c : Config) : 1 ≤ (prepareCpu c).cpu := by
  simp only [prepareCpu]
  split_ifs with h
  · simp
  · omega

lemma prepareGeneration_preserves (c : Config) :
    (prepareGeneration c).diskSize = c.diskSize ∧
    (prepareGeneration c).ramSizeMB = c.ramSizeMB ∧
    (prepareGeneration c).cpu = c.cpu ∧
    (prepareGeneration c).communicator = c.communicator := by
  simp only [prepareGeneration]
  split_ifs <;> exact ⟨rfl, rfl, rfl, rfl⟩

lemma prepareGeneration_generation (c : Config) :
    (prepareGeneration c).generation = 1 ∨ (prepareGeneration c).generation = 2 := by
  simp only [prepareGeneration]
  split_ifs <;> simp_all

lemma prepareCommunicator_preserves (c : Config) :
    (prepareCommunicator c).1.diskSize = c.diskSize ∧
    (prepareCommunicator c).1.ramSizeMB = c.ramSizeMB ∧
    (prepareCommunicator c).1.cpu = c.cpu ∧
    (prepareCommunicator c).1.generation = c.generation := by
  simp only [prepareCommunicator]
  split_ifs <;> exact ⟨rfl, rfl, rfl, rfl⟩

lemma prepareCommunicator_valid (c : Config) (h : (prepareCommunicator c).2 = []) :
    (prepareCommunicator c).1.communicator = "ssh" ∨
    (prepareCommunicator c).1.communicator = "winrm" := by
  simp only [prepareCommunicator] at h ⊢
  split_ifs at h ⊢ <;> simp_all

lemma prepareCommunicator_empty (c : Config) (h : c.communicator = "") :
    (prepareCommunicator c).1.communicator = "ssh" := by
  simp only [prepareCommunicator, h]
  simp

lemma prepareIsoChecksum_preserves (env : PrepareEnv) (c : Config) :
    (prepareIsoChecksum env c).1.diskSize = c.diskSize ∧
    (prepareIsoChecksum env c).1.ramSizeMB = c.ramSizeMB ∧
    (prepareIsoChecksum env c).1.cpu = c.cpu ∧
    (prepareIsoChecksum env c).1.generation = c.generation ∧
    (prepareIsoChecksum env c).1.communicator = c.communicator := by
  simp only [prepareIsoChecksum]
  split_ifs <;> exact ⟨rfl, rfl, rfl, rfl, rfl⟩

lemma prepareIsoUrls_preserves (env : PrepareEnv) (c : Config) :
    (prepareIsoUrls env c).1.diskSize = c.diskSize ∧
    (prepareIsoUrls env c).1.ramSizeMB = c.ramSizeMB ∧
    (prepareIsoUrls env c).1.cpu = c.cpu ∧
    (prepareIsoUrls env c).1.generation = c.generation ∧
    (prepareIsoUrls env c).1.communicator = c.communicator := by
  simp only [prepareIsoUrls]
  split_ifs <;> exact ⟨rfl, rfl, rfl, rfl, rfl⟩

/-- Claim C9: whenever `Builder.Prepare` returns without error, the resulting
configuration satisfies: `DiskSize` in `[10240, 67108864]` (40000 when the
input was 0), `RamSizeMB` in `[512, 32768]` (1024 when the input was 0), `Cpu`
at least 1, `Generation` exactly 1 or 2, and `Communicator` either "ssh" or
"winrm" ("ssh" when the input was empty). -/
theorem builderPrepare_valid_config (env : PrepareEnv) (c0 : Config)
    (h : (builderPrepare env c0).errors = []) :
    (10240 ≤ (builderPrepare env c0).config.diskSize ∧
      (builderPrepare env c0).config.diskSize ≤ 67108864) ∧
    (c0.diskSize = 0 → (builderPrepare env c0).config.diskSize = 40000) ∧
    (512 ≤ (builderPrepare env c0).config.ramSizeMB ∧
      (builderPrepare env c0).config.ramSizeMB ≤ 32768) ∧
    (c0.ramSizeMB = 0 → (builderPrepare env c0).config.ramSizeMB = 1024) ∧
    1 ≤ (builderPrepare env c0).config.cpu ∧
    ((builderPrepare env c0).config.generation = 1 ∨
      (builderPrepare env c0).config.generation = 2) ∧
    ((builderPrepare env c0).config.communicator = "ssh" ∨
      (builderPrepare env c0).config.communicator = "winrm") ∧
    (c0.communicator = "" → (builderPrepare env c0).config.communicator = "ssh") := by
  simp only [builderPrepare] at h ⊢
  set c1 := (checkDiskSize c0).1 with hc1
  set c2 := (checkRamSize c1).1 with hc2
  set c3 := prepareVmName c2 with hc3
  set c4 := prepareSwitchName env c3 with hc4
  set c5 := prepareCpu c4 with hc5
  set c6 := prepareGeneration c5 with hc6
  set c7 := (prepareCommunicator c6).1 with hc7
  set c8 := (prepareIsoChecksum env c7).1 with hc8
  set c9 := (prepareIsoUrls env c8).1 with hc9
  simp only [List.append_eq_nil] at h
  obtain ⟨⟨⟨⟨⟨⟨hsub, hd⟩, hr⟩, hg⟩, hcm⟩, hck⟩, hur⟩ := h
  have hdnone : (checkDiskSize c0).2 = none := by
    cases hx : (checkDiskSize c0).2 <;> simp_all
  have hrnone : (checkRamSize c1).2 = none := by
    cases hx : (checkRamSize c1).2 <;> simp_all
  have e_disk : c9.diskSize = c1.diskSize := by
    rw [hc9, (prepareIsoUrls_preserves env c8).1, hc8,
      (prepareIsoChecksum_preserves env c7).1, hc7,
      (prepareCommunicator_preserves c6).1, hc6,
      (prepareGeneration_preserves c5).1, hc5,
      (prepareCpu_preserves c4).1, hc4,
      (prepareSwitchName_preserves env c3).1, hc3,
      (prepareVmName_preserves c2).1, hc2,
      (checkRamSize_preserves c1).1]
  have e_ram : c9.ramSizeMB = c2.ramSizeMB := by
    rw [hc9, (prepareIsoUrls_preserves env c8).2.1, hc8,
      (prepareIsoChecksum_preserves env c7).2.1, hc7,
      (prepareCommunicator_preserves c6).2.1, hc6,
      (prepareGeneration_preserves c5).2.1, hc5,
      (prepareCpu_preserves c4).2.1, hc4,
      (prepareSwitchName_preserves env c3).2.1, hc3,
      (prepareVmName_preserves c2).2.1]
  have e_cpu : c9.cpu = c5.cpu := by
    rw [hc9, (prepareIsoUrls_preserves env c8).2.2.1, hc8,
      (prepareIsoChecksum_preserves env c7).2.2.1, hc7,
      (prepareCommunicator_preserves c6).2.2.1, hc6,
      (prepareGeneration_preserves c5).2.2.1]
  have e_gen : c9.generation = c6.generation := by
    rw [hc9, (prepareIsoUrls_preserves env c8).2.2.2.1, hc8,
      (prepareIsoChecksum_preserves env c7).2.2.2.1, hc7,
      (prepareCommunicator_preserves c6).2.2.2]
  have e_comm : c9.communicator = c7.communicator := by
    rw [hc9, (prepareIsoUrls_preserves env c8).2.2.2.2, hc8,
      (prepareIsoChecksum_preserves env c7).2.2.2.2]
  have hdisk_bounds := checkDiskSize_none c0 hdnone
  rw [← hc1] at hdisk_bounds
  have hram_bounds := checkRamSize_none c1 hrnone
  rw [← hc2] at hram_bounds
  have hMinD : MinDiskSize = 10240 := rfl
  have hMaxD : MaxDiskSize = 67108864 := rfl
  have hMinR : MinRamSize = 512 := rfl
  have hMaxR : MaxRamSize = 32768 := rfl
  refine ⟨⟨?_, ?_⟩, ?_, ⟨?_, ?_⟩, ?_, ?_, ?_, ?_, ?_⟩
  · rw [e_disk]; omega
  · rw [e_disk]; omega
  · intro h0
    rw [e_disk, hc1, checkDiskSize_diskSize c0, if_pos h0]
    rfl
  · rw [e_ram]; omega
  · rw [e_ram]; omega
  · intro h0
    have h1 : c1.ramSizeMB = c0.ramSizeMB := by
      rw [hc1]; exact (checkDiskSize_preserves c0).1
    rw [e_ram, hc2, checkRamSize_ramSizeMB c1, if_pos (h1.trans h0)]
    rfl
  · rw [e_cpu, hc5]; exact prepareCpu_cpu c4
  · rw [e_gen, hc6]; exact prepareGeneration_generation c5
  · rw [e_comm, hc7]; exact prepareCommunicator_valid c6 hcm
  · intro h0
    have h6 : c6.communicator = c0.communicator := by
      rw [hc6, (prepareGeneration_preserves c5).2.2.2, hc5,
        (prepareCpu_preserves c4).2.2.2, hc4,
        (prepareSwitchName_preserves env c3).2.2.2.2, hc3,
        (prepareVmName_preserves c2).2.2.2.2, hc2,
        (checkRamSize_preserves c1).2.2.2, hc1,
        (checkDiskSize_preserves c0).2.2.2]
    rw [e_comm, hc7]
    exact prepareCommunicator_empty c6 (h6.trans h0)

/-- A collaborator environment under which `Builder.Prepare` succeeds. -/
def examplePrepareEnv : PrepareEnv :=
  { subPrepareErrors := []
    onlineSwitchName := ""
    onlineSwitchErr := false
    hashKnown := fun _ => true
    downloadableURL := fun u => .ok u
    freeMB := 8192 }

/-- An input configuration with zero sizes and empty communicator. -/
def examplePrepareConfig : Config :=
  { packerBuildName := "test"
    diskSize := 0
    ramSizeMB := 0
    floppyFiles := []
    isoChecksum := "ABC123"
    isoChecksumType := "MD5"
    rawSingleISOUrl := "http://example.com/os.iso"
    isoUrls := []
    vmName := ""
    switchName := ""
    vlanId := ""
    cpu := 0
    generation := 0
    communicator := ""
    ipAddressTimeoutSecs := 0
    shutdownCommand := "shutdown" }

/-- Witness for C9: a concrete error-free `Prepare` run with defaulted
sizes, CPU, generation and communicator. -/
theorem builderPrepare_valid_config_witness :
    (10240 ≤ (builderPrepare examplePrepareEnv examplePrepareConfig).config.diskSize ∧
      (builderPrepare examplePrepareEnv examplePrepareConfig).config.diskSize ≤ 67108864) ∧
    (examplePrepareConfig.diskSize = 0 →
      (builderPrepare examplePrepareEnv examplePrepareConfig).config.diskSize = 40000) ∧
    (512 ≤ (builderPrepare examplePrepareEnv examplePrepareConfig).config.ramSizeMB ∧
      (builderPrepare examplePrepareEnv examplePrepareConfig).config.ramSizeMB ≤ 32768) ∧
    (examplePrepareConfig.ramSizeMB = 0 →
      (builderPrepare examplePrepareEnv examplePrepareConfig).config.ramSizeMB = 1024) ∧
    1 ≤ (builderPrepare examplePrepareEnv examplePrepareConfig).config.cpu ∧
    ((builderPrepare examplePrepareEnv examplePrepareConfig).config.generation = 1 ∨
      (builderPrepare examplePrepareEnv examplePrepareConfig).config.generation = 2) ∧
    ((builderPrepare examplePrepareEnv examplePrepareConfig).config.communicator = "ssh" ∨
      (builderPrepare examplePrepareEnv examplePrepareConfig).config.communicator = "winrm") ∧
    (examplePrepareConfig.communicator = "" →
      (builderPrepare examplePrepareEnv examplePrepareConfig).config.communicator = "ssh") :=
  builderPrepare_valid_config examplePrepareEnv examplePrepareConfig (by decide)
